import Mathlib

/-!
Verification of the Forge gym adapter (`forge_gym/env.py`, `agent_loop.py`).

Python dictionaries are modelled shallowly: each field the code reads is an
`Option`-valued record field (`none` = key absent), and a whole state dict is
`Option StateDict` where `none` covers both Python `None` and the falsy empty
dict `\x7b\x7d` (the source always tests truthiness before any key access, so the
two are indistinguishable to the code under verification).  Rewards are exact
rationals (`ℚ`), with `0.1` rendered as `1/10`.
-/

/-- A player entry in the engine's `players` list (`env.py`): the code reads
`player.get('life', 20)` and `player.get('hand', [])`. -/
structure Player where
  life : Option Int
  hand : Option (List String)
  deriving DecidableEq

/-- An action descriptor from the engine's action list; the adapter only
reads display fields and the list's length/positions. -/
structure ActionDesc where
  type : Option String
  card_name : Option String
  deriving DecidableEq

/-- The nested `possible_actions` object: `\x7b"actions": [...]\x7d`. -/
structure ActionsDict where
  actions : Option (List ActionDesc)
  deriving DecidableEq

/-- A truthy (non-empty) engine state dict; every field the adapter reads,
each optional because the engine may omit it. -/
structure StateDict where
  turn : Option Int
  phase : Option String
  activePlayerId : Option Int
  stack_size : Option Int
  players : Option (List Player)
  game_over : Option Bool
  possible_actions : Option ActionsDict
  deriving DecidableEq

/-- A player dict with no keys (`\x7b\x7d`). -/
def emptyPlayer : Player := { life := none, hand := none }

/-- The default `[\x7b\x7d, \x7b\x7d]` used by `_calculate_reward` and
`_get_observation` when the `players` key is absent. -/
def defaultTwoPlayers : List Player := [emptyPlayer, emptyPlayer]

/-- `players[i].get('life', 20)` (the call sites guard `i < len(players)`,
so the out-of-bounds default is never reached there). -/
def playerLife (ps : List Player) (i : Nat) : Int :=
  ((ps.getD i emptyPlayer).life).getD 20

/-- `len(players[i].get('hand', []))`. -/
def playerHandSize (ps : List Player) (i : Nat) : Nat :=
  ((ps.getD i emptyPlayer).hand).getD [] |>.length

/-- `state.get("possible_actions", \x7b\x7d).get("actions", [])` (`agent_loop.py`). -/
def actionsOf (s : StateDict) : List ActionDesc :=
  match s.possible_actions with
  | none => []
  | some ad => ad.actions.getD []

/-- Truthiness of `state.get("game_over")` (`agent_loop.py` loop condition). -/
def gameOverFlag (s : StateDict) : Bool := s.game_over.getD false

/-- The `phase_map` lookup of `_get_observation`, with the dict's `.get`
default of `0` for unrecognized phases. -/
def phaseMap (phase : String) : Int :=
  if phase = "UNTAP" then 0
  else if phase = "UPKEEP" then 1
  else if phase = "DRAW" then 2
  else if phase = "MAIN1" then 3
  else if phase = "COMBAT_BEGIN" then 4
  else if phase = "COMBAT_DECLARE_ATTACKERS" then 5
  else if phase = "COMBAT_DECLARE_BLOCKERS" then 6
  else if phase = "COMBAT_FIRST_STRIKE_DAMAGE" then 7
  else if phase = "COMBAT_DAMAGE" then 8
  else if phase = "COMBAT_END" then 9
  else if phase = "MAIN2" then 3
  else if phase = "END_OF_TURN" then 1
  else if phase = "CLEANUP" then 1
  else 0

/-- The fixed-shape observation built by `ForgeEnv._get_observation`. -/
structure Observation where
  turn : Int
  phase : Int
  active_player : Int
  stack_size : Int
  player_0_life : Int
  player_1_life : Int
  player_0_hand_size : Nat
  player_1_hand_size : Nat
  deriving DecidableEq

/-- `ForgeEnv._get_observation`: the default observation on a falsy
`current_state`, otherwise defaulted field reads over the state dict. -/
def getObservation (state : Option StateDict) : Observation :=
  match state with
  | none =>
      { turn := 0, phase := 0, active_player := 0, stack_size := 0,
        player_0_life := 20, player_1_life := 20,
        player_0_hand_size := 0, player_1_hand_size := 0 }
  | some s =>
      let players := s.players.getD defaultTwoPlayers
      { turn := s.turn.getD 0
        phase := phaseMap (s.phase.getD "UNTAP")
        active_player := s.activePlayerId.getD 0
        stack_size := s.stack_size.getD 0
        player_0_life := if 0 < players.length then playerLife players 0 else 20
        player_1_life := if 1 < players.length then playerLife players 1 else 20
        player_0_hand_size := if 0 < players.length then playerHandSize players 0 else 0
        player_1_hand_size := if 1 < players.length then playerHandSize players 1 else 0 }

/-- Outcome of `json.loads` on a state response: a parsed dict (`some` when
truthy, `none` when it parsed to the empty dict) or a `JSONDecodeError`. -/
inductive ParseOutcome where
  | ok (s : Option StateDict)
  | jsonError
  deriving DecidableEq

/-- Outcome of parsing the `possible_actions` response in `_update_state`:
`actions_data.get('actions', [])` on success, `JSONDecodeError` otherwise. -/
inductive ActionsParse where
  | ok (l : List ActionDesc)
  | jsonError
  deriving DecidableEq

/-- The state-assignment half of `ForgeEnv._update_state`: on parse failure
`current_state` becomes the falsy empty dict. -/
def updateCurrentState : ParseOutcome → Option StateDict
  | .ok s => s
  | .jsonError => none

/-- `ForgeEnv._update_state`: returns the new `current_state`,
`episode_turns` and `current_actions`.  On a state parse failure
`episode_turns` keeps its previous value (the assignment is inside the
`try`); on an actions parse failure `current_actions` becomes `[]`. -/
def updateState (prevTurns : Int) (sp : ParseOutcome) (ap : ActionsParse) :
    Option StateDict × Int × List ActionDesc :=
  let stateAndTurns : Option StateDict × Int :=
    match sp with
    | .ok (some d) => (some d, d.turn.getD 0)
    | .ok none => (none, 0)
    | .jsonError => (none, prevTurns)
  let acts : List ActionDesc :=
    match ap with
    | .ok l => l
    | .jsonError => []
  (stateAndTurns.1, stateAndTurns.2, acts)

/-- `ForgeEnv._calculate_reward`, on exact rationals (`0.1` as `1/10`). -/
def calculateReward (previousState currentState : Option StateDict) : ℚ :=
  match previousState, currentState with
  | some prev, some curr =>
      let prevPlayers := prev.players.getD defaultTwoPlayers
      let currPlayers := curr.players.getD defaultTwoPlayers
      if 2 ≤ prevPlayers.length ∧ 2 ≤ currPlayers.length then
        let prevP0Life := playerLife prevPlayers 0
        let currP0Life := playerLife currPlayers 0
        let prevP1Life := playerLife prevPlayers 1
        let currP1Life := playerLife currPlayers 1
        let reward : ℚ := 0
        let reward :=
          if currP1Life < prevP1Life then
            reward + ((prevP1Life - currP1Life : Int) : ℚ) * (1/10) else reward
        let reward :=
          if currP0Life < prevP0Life then
            reward - ((prevP0Life - currP0Life : Int) : ℚ) * (1/10) else reward
        let reward :=
          if currP1Life ≤ 0 then reward + 10
          else if currP0Life ≤ 0 then reward - 10
          else reward
        reward
      else 0
  | _, _ => 0

/-- `ForgeEnv._is_terminated`: true on a falsy state, else true iff some
player in `state.get('players', [])` has `life ≤ 0`. -/
def isTerminated (state : Option StateDict) : Bool :=
  match state with
  | none => true
  | some s => (s.players.getD []).any (fun p => p.life.getD 20 ≤ 0)

/-- The record returned by `ForgeEnv.step` (observation, reward, terminated,
truncated), together with the command line the step sent to the engine. -/
structure StepResultM where
  observation : Observation
  reward : ℚ
  terminated : Bool
  truncated : Bool
  commandSent : String
  deriving DecidableEq

/-- The mutable fields of `ForgeEnv` that `step` reads or writes.  The
process handle is opaque: only its presence matters to the code. -/
structure EnvState where
  process : Option Unit
  current_state : Option StateDict
  current_actions : List ActionDesc
  episode_turns : Int
  max_turns : Int
  deriving DecidableEq

/-- `ForgeEnv.step`: raises `RuntimeError` when no process exists; otherwise
picks the command (`play_action <i>` if `i < len(current_actions)`, else
`pass_priority`), refreshes the state via `_update_state` (outcomes `sp`,
`ap` model the two transport/parse results), and assembles the result from
`_calculate_reward`, `_is_terminated` and the turn budget. -/
def envStep (env : EnvState) (action : Int) (sp : ParseOutcome) (ap : ActionsParse) :
    Except String (EnvState × StepResultM) :=
  match env.process with
  | none => Except.error "Environment not initialized. Call reset() first."
  | some _ =>
      let command : String :=
        if action < (env.current_actions.length : Int) then
          "play_action " ++ toString action
        else "pass_priority"
      let previousState := env.current_state
      let (newState, newTurns, newActions) := updateState env.episode_turns sp ap
      let reward := calculateReward previousState newState
      let terminated := isTerminated newState
      let truncated := decide (env.max_turns ≤ newTurns)
      Except.ok
        ({ env with current_state := newState, episode_turns := newTurns,
                    current_actions := newActions },
         { observation := getObservation newState, reward := reward,
           terminated := terminated, truncated := truncated, commandSent := command })

/-- The keyword parameters accepted by `ForgeEnv.__init__` (its signature). -/
def forgeEnvInitParams : List String :=
  ["jar_path", "java_home", "player1_is_human", "player2_is_human",
   "max_turns", "render_mode"]

/-- The keyword arguments `sparse_rewards_example.py` passes to
`forge_gym.ForgeEnv(...)`. -/
def sparseExampleKwargs : List String :=
  ["player1_is_human", "player2_is_human", "max_turns", "render_mode",
   "reward_mode"]

/-- Python calling convention: a call with these keyword arguments succeeds
iff every keyword names a declared parameter (otherwise `TypeError`). -/
def initAcceptsKwargs (kwargs : List String) : Bool :=
  kwargs.all (fun k => forgeEnvInitParams.contains k)

/-- The index validation in `agent_loop.run_game`:
`if action_index < 0 or action_index >= action_count: action_index = 0`. -/
def validateActionIndex (actionIndex : Int) (actionCount : Nat) : Int :=
  if actionIndex < 0 ∨ (actionCount : Int) ≤ actionIndex then 0 else actionIndex

/-- How an episode of `agent_loop.run_game` ends: the while condition turns
false (engine reported `game_over`, or the step counter reached the safety
ceiling), or a `break` fired (empty action list, or a transport failure). -/
inductive ExitReason where
  | gameOver
  | stepLimit
  | noActions
  | transportFail
  deriving DecidableEq

/-- The main loop of `agent_loop.run_game`, from the line `while not
state.get("game_over") and step < max_steps:` onwards.  The engine is an
arbitrary response oracle (`engine n i` = parsed reply to the `n`-th
`play_action i` submission, `none` = transport failure) and the policy an
arbitrary per-step index choice; the result is the final value of `step`
and how the loop exited. -/
def runLoop (engine : Nat → Int → Option StateDict) (policy : Nat → Int)
    (maxSteps : Nat) (st : StateDict) (step : Nat) : Nat × ExitReason :=
  if gameOverFlag st then (step, ExitReason.gameOver)
  else if step < maxSteps then
    if (actionsOf st).length = 0 then (step + 1, ExitReason.noActions)
    else
      match engine step (validateActionIndex (policy step) (actionsOf st).length) with
      | none => (step + 1, ExitReason.transportFail)
      | some stNext => runLoop engine policy maxSteps stNext (step + 1)
  else (step, ExitReason.stepLimit)
termination_by maxSteps - step
decreasing_by omega

/-- The safety ceiling `max_steps = 500` in `agent_loop.run_game`. -/
def maxStepsDefault : Nat := 500

/-- A JSON value returned by the policy endpoint, as `policy_request` sees
it: a bare integer, a dict (each relevant key either absent, or present
with `null` or an integer), or some other value (coercible by `int(...)`
or not). -/
inductive PolicyJson where
  | jint (n : Int)
  | jdict (action_index : Option (Option Int)) (index : Option (Option Int))
  | jother (asInt : Option Int)
  deriving DecidableEq

/-- The outcome of the HTTP round-trip in `policy_request`: a parsed JSON
response, or one of the caught failures (`URLError`, `socket.timeout`,
`JSONDecodeError`/`ValueError`/`TypeError`). -/
inductive PolicyOutcome where
  | response (v : PolicyJson)
  | networkError
  | timeout
  | parseError
  deriving DecidableEq

/-- `agent_loop.policy_request`, response handling: dict responses read
`result.get('action_index', result.get('index', 0))` and map an explicit
`None` to the default `0`; bare integers are returned as-is; other values
go through `int(...)` whose failure is caught; every caught failure
returns the default action index `0`. -/
def policyRequest : PolicyOutcome → Int
  | .response (.jdict actionIndexField indexField) =>
      let idx : Option Int :=
        match actionIndexField with
        | some v => v
        | none =>
            match indexField with
            | some v => v
            | none => some 0
      match idx with
      | none => 0
      | some n => n
  | .response (.jint n) => n
  | .response (.jother (some n)) => n
  | .response (.jother none) => 0
  | .networkError => 0
  | .timeout => 0
  | .parseError => 0

/-- Modelled from the spec (section 4.4 / claim C2 wording), for comparison
with `calculateReward`: dense reward as the claim states it, with the flat
`+10.0`/`-10.0` tied to the step a life total *first* reaches `≤ 0`
(previous life `> 0`, current `≤ 0`) and both flats independent. -/
def denseRewardSpec (previousState currentState : Option StateDict) : ℚ :=
  match previousState, currentState with
  | some prev, some curr =>
      let prevPlayers := prev.players.getD defaultTwoPlayers
      let currPlayers := curr.players.getD defaultTwoPlayers
      if 2 ≤ prevPlayers.length ∧ 2 ≤ currPlayers.length then
        let prevP0Life := playerLife prevPlayers 0
        let currP0Life := playerLife currPlayers 0
        let prevP1Life := playerLife prevPlayers 1
        let currP1Life := playerLife currPlayers 1
        ((max (prevP1Life - currP1Life) 0 : Int) : ℚ) * (1/10)
          - ((max (prevP0Life - currP0Life) 0 : Int) : ℚ) * (1/10)
          + (if 0 < prevP1Life ∧ currP1Life ≤ 0 then 10 else 0)
          + (if 0 < prevP0Life ∧ currP0Life ≤ 0 then -10 else 0)
      else 0
  | _, _ => 0

/-- The dense reward formula the code actually implements, stated in closed
form: the flats apply on *every* step where the respective life total is
`≤ 0` at the end of the step, and the loss penalty is skipped whenever the
win bonus applies. -/
def denseRewardAmended (previousState currentState : Option StateDict) : ℚ :=
  match previousState, currentState with
  | some prev, some curr =>
      let prevPlayers := prev.players.getD defaultTwoPlayers
      let currPlayers := curr.players.getD defaultTwoPlayers
      if 2 ≤ prevPlayers.length ∧ 2 ≤ currPlayers.length then
        let prevP0Life := playerLife prevPlayers 0
        let currP0Life := playerLife currPlayers 0
        let prevP1Life := playerLife prevPlayers 1
        let currP1Life := playerLife currPlayers 1
        ((max (prevP1Life - currP1Life) 0 : Int) : ℚ) * (1/10)
          - ((max (prevP0Life - currP0Life) 0 : Int) : ℚ) * (1/10)
          + (if currP1Life ≤ 0 then 10 else if currP0Life ≤ 0 then -10 else 0)
      else 0
  | _, _ => 0

/-- Dense-reward component: `+0.1` per point of life the opponent
(player 1) lost this step. -/
def lifeLostByOpponentComponent (prevP1Life currP1Life : Int) : ℚ :=
  if currP1Life < prevP1Life then ((prevP1Life - currP1Life : Int) : ℚ) * (1/10) else 0

/-- Dense-reward component: `-0.1` per point of life self (player 0) lost
this step. -/
def lifeLostBySelfComponent (prevP0Life currP0Life : Int) : ℚ :=
  if currP0Life < prevP0Life then -(((prevP0Life - currP0Life : Int) : ℚ) * (1/10)) else 0

/-- Dense-reward component: flat `+10.0` whenever the opponent's current
life is `≤ 0`. -/
def winBonusComponent (currP1Life : Int) : ℚ :=
  if currP1Life ≤ 0 then 10 else 0

/-- Dense-reward component: flat `-10.0` whenever self's current life is
`≤ 0` and the win bonus did not apply (the source's `elif`). -/
def lossPenaltyComponent (currP0Life currP1Life : Int) : ℚ :=
  if ¬currP1Life ≤ 0 ∧ currP0Life ≤ 0 then -10 else 0

/-- A state dict with no recognized keys. -/
def emptyStateDict : StateDict :=
  { turn := none, phase := none, activePlayerId := none, stack_size := none,
    players := none, game_over := none, possible_actions := none }

/-- The reward chain of `_calculate_reward` splits into the four components. -/
theorem calculateReward_eq_components (prev curr : StateDict) :
    calculateReward (some prev) (some curr) =
      if 2 ≤ (prev.players.getD defaultTwoPlayers).length
          ∧ 2 ≤ (curr.players.getD defaultTwoPlayers).length then
        lifeLostByOpponentComponent
            (playerLife (prev.players.getD defaultTwoPlayers) 1)
            (playerLife (curr.players.getD defaultTwoPlayers) 1)
          + lifeLostBySelfComponent
            (playerLife (prev.players.getD defaultTwoPlayers) 0)
            (playerLife (curr.players.getD defaultTwoPlayers) 0)
          + winBonusComponent (playerLife (curr.players.getD defaultTwoPlayers) 1)
          + lossPenaltyComponent
            (playerLife (curr.players.getD defaultTwoPlayers) 0)
            (playerLife (curr.players.getD defaultTwoPlayers) 1)
      else 0 := by
  simp only [calculateReward, lifeLostByOpponentComponent, lifeLostBySelfComponent,
    winBonusComponent, lossPenaltyComponent]
  split
  · split_ifs <;> ring_nf <;> omega
  · rfl

/-- The opponent-life component equals its `max`-form. -/
theorem lifeLostByOpponentComponent_eq_max (p c : Int) :
    lifeLostByOpponentComponent p c = ((max (p - c) 0 : Int) : ℚ) * (1/10) := by
  unfold lifeLostByOpponentComponent
  split
  · rw [max_eq_left (by omega)]
  · rw [max_eq_right (by omega)]
    norm_num

/-- The self-life component equals the negated `max`-form. -/
theorem lifeLostBySelfComponent_eq_max (p c : Int) :
    lifeLostBySelfComponent p c = -(((max (p - c) 0 : Int) : ℚ) * (1/10)) := by
  unfold lifeLostBySelfComponent
  split
  · rw [max_eq_left (by omega)]
  · rw [max_eq_right (by omega)]
    norm_num

/-- The two flat components together make up the source's `if/elif` flat. -/
theorem winloss_components_eq (c0 c1 : Int) :
    winBonusComponent c1 + lossPenaltyComponent c0 c1 =
      (if c1 ≤ 0 then 10 else if c0 ≤ 0 then (-10 : ℚ) else 0) := by
  unfold winBonusComponent lossPenaltyComponent
  split_ifs <;> ring_nf <;> omega

/-- `_calculate_reward` equals the closed-form amended dense formula. -/
theorem calculateReward_eq_amended (previousState currentState : Option StateDict) :
    calculateReward previousState currentState =
      denseRewardAmended previousState currentState := by
  rcases previousState with _ | prev
  · rfl
  rcases currentState with _ | curr
  · rfl
  rw [calculateReward_eq_components]
  simp only [denseRewardAmended]
  split
  · rw [lifeLostByOpponentComponent_eq_max, lifeLostBySelfComponent_eq_max,
      add_assoc, add_assoc, winloss_components_eq]
    ring
  · rfl

/-- One-step continuation of the loop body when the engine answers. -/
theorem runLoop_continue (engine : Nat → Int → Option StateDict)
    (policy : Nat → Int) (maxSteps step : Nat) (st stNext : StateDict)
    (hgo : gameOverFlag st = false) (hstep : step < maxSteps)
    (hne : (actionsOf st).length ≠ 0)
    (heng : engine step (validateActionIndex (policy step) (actionsOf st).length)
      = some stNext) :
    runLoop engine policy maxSteps st step
      = runLoop engine policy maxSteps stNext (step + 1) := by
  rw [runLoop]
  simp only [hgo, Bool.false_eq_true, if_false, hstep, if_true, hne, heng]

/-- The step counter returned by the loop never exceeds the ceiling. -/
theorem runLoop_fst_le (engine : Nat → Int → Option StateDict)
    (policy : Nat → Int) (maxSteps : Nat) :
    ∀ (fuel : Nat) (st : StateDict) (step : Nat), maxSteps - step ≤ fuel →
      step ≤ maxSteps → (runLoop engine policy maxSteps st step).1 ≤ maxSteps := by
  intro fuel
  induction fuel with
  | zero =>
      intro st step hf hs
      rw [runLoop]
      split
      · exact hs
      · rw [if_neg (by omega)]
        exact hs
  | succ n ih =>
      intro st step hf hs
      rw [runLoop]
      split
      · exact hs
      · split
        · split
          · simp only
            omega
          · cases heng : engine step
              (validateActionIndex (policy step) (actionsOf st).length) with
            | none => simp only; omega
            | some stNext => exact ih stNext (step + 1) (by omega) (by omega)
        · exact hs

/-- Against an engine that forever returns the same non-terminal state with
a non-empty action list, the loop runs until the counter hits the ceiling. -/
theorem runLoop_stuck_engine (stuck : StateDict) (policy : Nat → Int)
    (maxSteps : Nat) (hgo : gameOverFlag stuck = false)
    (hne : actionsOf stuck ≠ []) :
    ∀ (k step : Nat), step + k = maxSteps →
      runLoop (fun _ _ => some stuck) policy maxSteps stuck step
        = (maxSteps, ExitReason.stepLimit) := by
  intro k
  induction k with
  | zero =>
      intro step h
      rw [runLoop]
      rw [if_neg (by simp [hgo]), if_neg (by omega)]
      exact congrArg (fun n => (n, ExitReason.stepLimit)) (by omega)
  | succ n ih =>
      intro step h
      rw [runLoop_continue (fun _ _ => some stuck) policy maxSteps step stuck stuck
        hgo (by omega) (by simpa using hne) rfl]
      exact ih (step + 1) (by omega)

/-- Previous state of a winning transition: opponent (player 1) at 5 life. -/
def winPrevState : StateDict :=
  { turn := some 9, phase := none, activePlayerId := none, stack_size := none,
    players := some [{ life := some 20, hand := none }, { life := some 5, hand := none }],
    game_over := none, possible_actions := none }

/-- Current state of a winning transition: opponent (player 1) at 0 life. -/
def winCurrState : StateDict :=
  { turn := some 9, phase := none, activePlayerId := none, stack_size := none,
    players := some [{ life := some 20, hand := none }, { life := some 0, hand := none }],
    game_over := none, possible_actions := none }

/-- C1: the claim says a selectable sparse reward mode exists (reward 0.0
per step, `+1.0`/`-1.0` at the terminal step).  `ForgeEnv.__init__` accepts
no `reward_mode` keyword — the repository's own `sparse_rewards_example.py`
call `ForgeEnv(..., reward_mode="sparse")` raises `TypeError` — and the
reward on the terminal winning step is the dense `10.5`, not `1.0`. -/
theorem c1_no_sparse_reward_mode :
    initAcceptsKwargs sparseExampleKwargs = false
    ∧ calculateReward (some winPrevState) (some winCurrState) = 21/2
    ∧ (21/2 : ℚ) ≠ 1 := by
  refine ⟨by decide, ?_, by norm_num⟩
  norm_num [calculateReward, winPrevState, winCurrState, playerLife,
    defaultTwoPlayers, emptyPlayer]

/-- Previous state with the opponent already dead at -5 life. -/
def deadPrevState : StateDict :=
  { turn := some 7, phase := none, activePlayerId := none, stack_size := none,
    players := some [{ life := some 20, hand := none }, { life := some (-5), hand := none }],
    game_over := none, possible_actions := none }

/-- Current state one step later, opponent still at -5 life. -/
def deadCurrState : StateDict :=
  { turn := some 8, phase := none, activePlayerId := none, stack_size := none,
    players := some [{ life := some 20, hand := none }, { life := some (-5), hand := none }],
    game_over := none, possible_actions := none }

/-- C2 counterexample: with the opponent already at -5 life in both states
(no life change, not the first crossing), the claim's formula gives 0.0 but
`_calculate_reward` pays the +10.0 flat again. -/
theorem c2_counterexample :
    calculateReward (some deadPrevState) (some deadCurrState) = 10
    ∧ denseRewardSpec (some deadPrevState) (some deadCurrState) = 0 := by
  constructor
  · norm_num [calculateReward, deadPrevState, deadCurrState, playerLife,
      defaultTwoPlayers, emptyPlayer]
  · norm_num [denseRewardSpec, deadPrevState, deadCurrState, playerLife,
      defaultTwoPlayers, emptyPlayer]

/-- C2 (amended): the dense reward is `+0.1·(opponent life lost this step)
− 0.1·(self life lost this step)` plus a flat `+10.0` on *every* step whose
resulting state has the opponent's life ≤ 0, else a flat `−10.0` on every
step whose resulting state has self's life ≤ 0 (the loss penalty is skipped
when the win bonus fires); 0.0 on the very first call. -/
theorem c2_dense_reward_formula :
    (∀ previousState currentState : Option StateDict,
      calculateReward previousState currentState
        = denseRewardAmended previousState currentState)
    ∧ ∀ currentState : Option StateDict, calculateReward none currentState = 0 :=
  ⟨calculateReward_eq_amended, fun c => by cases c <;> rfl⟩

/-- A state offering exactly one possible action and no game-over flag. -/
def oneActionState : StateDict :=
  { turn := none, phase := none, activePlayerId := none, stack_size := none,
    players := none, game_over := none,
    possible_actions :=
      some { actions := some [{ type := some "pass_priority", card_name := none }] } }

/-- C3: when the policy's index is negative or ≥ the action count, the
control loop substitutes index 0, submits that action (the engine is
queried at index 0), and the loop continues with the engine's reply. -/
theorem c3_out_of_range_index_clamped (engine : Nat → Int → Option StateDict)
    (policy : Nat → Int) (maxSteps step : Nat) (st stNext : StateDict)
    (hgo : gameOverFlag st = false) (hstep : step < maxSteps)
    (hne : actionsOf st ≠ [])
    (hbad : policy step < 0 ∨ ((actionsOf st).length : Int) ≤ policy step)
    (heng : engine step 0 = some stNext) :
    validateActionIndex (policy step) (actionsOf st).length = 0
    ∧ runLoop engine policy maxSteps st step
        = runLoop engine policy maxSteps stNext (step + 1) := by
  have hv : validateActionIndex (policy step) (actionsOf st).length = 0 := by
    unfold validateActionIndex
    exact if_pos hbad
  exact ⟨hv, runLoop_continue engine policy maxSteps step st stNext hgo hstep
    (by simpa [List.length_eq_zero] using hne) (by rw [hv]; exact heng)⟩

/-- C3 witness: policy replies 5 against a single-action state. -/
theorem c3_witness :
    validateActionIndex 5 (actionsOf oneActionState).length = 0
    ∧ runLoop (fun _ _ => some oneActionState) (fun _ => 5) 500 oneActionState 0
        = runLoop (fun _ _ => some oneActionState) (fun _ => 5) 500 oneActionState 1 :=
  c3_out_of_range_index_clamped (fun _ _ => some oneActionState) (fun _ => 5) 500 0
    oneActionState oneActionState rfl (by decide) (by decide) (by decide) rfl

/-- C4: for every engine-response sequence the loop's returned step counter
never exceeds the ceiling, and against an engine that forever returns the
same non-terminal state with actions available, the loop ends at exactly
the ceiling with the step-limit exit. -/
theorem c4_safety_ceiling :
    (∀ (engine : Nat → Int → Option StateDict) (policy : Nat → Int)
        (maxSteps : Nat) (st : StateDict) (step : Nat), step ≤ maxSteps →
        (runLoop engine policy maxSteps st step).1 ≤ maxSteps)
    ∧ (∀ (stuck : StateDict) (policy : Nat → Int) (maxSteps : Nat),
        gameOverFlag stuck = false → actionsOf stuck ≠ [] →
        runLoop (fun _ _ => some stuck) policy maxSteps stuck 0
          = (maxSteps, ExitReason.stepLimit)) :=
  ⟨fun engine policy maxSteps st step h =>
      runLoop_fst_le engine policy maxSteps (maxSteps - step) st step (le_refl _) h,
   fun stuck policy maxSteps hgo hne =>
      runLoop_stuck_engine stuck policy maxSteps hgo hne maxSteps 0 (by omega)⟩

/-- C4 witness: counter bound at the default ceiling, and a stuck engine
forced to the step limit at ceiling 3. -/
theorem c4_witness :
    (runLoop (fun _ _ => none) (fun _ => 0) maxStepsDefault emptyStateDict 0).1
        ≤ maxStepsDefault
    ∧ runLoop (fun _ _ => some oneActionState) (fun _ => 0) 3 oneActionState 0
        = (3, ExitReason.stepLimit) :=
  ⟨c4_safety_ceiling.1 (fun _ _ => none) (fun _ => 0) maxStepsDefault
      emptyStateDict 0 (by decide),
   c4_safety_ceiling.2 oneActionState (fun _ => 0) 3 rfl (by decide)⟩

/-- A state where the engine reports game over while both players are
still at 20 life. -/
def liveGameOverState : StateDict :=
  { turn := some 3, phase := some "MAIN1", activePlayerId := some 0,
    stack_size := some 0,
    players := some [{ life := some 20, hand := none }, { life := some 20, hand := none }],
    game_over := some true, possible_actions := none }

/-- C5 counterexample: the engine reports `game_over`, yet
`_is_terminated` returns false because no tracked life is ≤ 0 — the
`game_over` flag is never consulted by the environment. -/
theorem c5_counterexample :
    gameOverFlag liveGameOverState = true
    ∧ isTerminated (some liveGameOverState) = false := by decide

/-- C5 (amended): the terminated flag returned by `step` is true exactly
when the current state is falsy (absent/empty) or some tracked player's
life is at or below 0; the engine's `game_over` report plays no part. -/
theorem c5_terminated_characterization :
    (∀ state : Option StateDict,
      isTerminated state = true ↔
        state = none
        ∨ ∃ s, state = some s ∧ ∃ p ∈ s.players.getD [], p.life.getD 20 ≤ 0)
    ∧ (∀ (cs : Option StateDict) (ca : List ActionDesc) (et mt action : Int)
        (sp : ParseOutcome) (ap : ActionsParse),
        Except.map (fun r => r.2.terminated)
            (envStep { process := some (), current_state := cs,
                       current_actions := ca, episode_turns := et,
                       max_turns := mt } action sp ap)
          = Except.ok (isTerminated (updateState et sp ap).1)) := by
  constructor
  · intro state
    cases state with
    | none => simp [isTerminated]
    | some s => simp [isTerminated, List.any_eq_true]
  · intro cs ca et mt action sp ap
    rfl

/-- A state where the opponent sits exactly at 0 life. -/
def drawnDeadState : StateDict :=
  { turn := some 4, phase := none, activePlayerId := none, stack_size := none,
    players := some [{ life := some 20, hand := none }, { life := some 0, hand := none }],
    game_over := none, possible_actions := none }

/-- C6 counterexample: previous and current states are identical (no life
change, no win/loss transition), yet the dense reward is 10.0, not 0.0,
because the win bonus keys on the current life alone. -/
theorem c6_counterexample :
    calculateReward (some drawnDeadState) (some drawnDeadState) = 10 := by
  norm_num [calculateReward, drawnDeadState, playerLife, defaultTwoPlayers,
    emptyPlayer]

/-- C6 (amended): the dense reward is the sum, in any order, of the four
components — opponent-life-lost, self-life-lost, win bonus (+10 whenever
the opponent's current life ≤ 0), loss penalty (−10 whenever self's current
life ≤ 0 and the win bonus did not fire) — and it is exactly 0.0 when
previous equals current and both players' lives are positive. -/
theorem c6_component_additivity (prev curr : StateDict) (pp cp : List Player)
    (hp : prev.players = some pp) (hc : curr.players = some cp)
    (h2p : 2 ≤ pp.length) (h2c : 2 ≤ cp.length) :
    (calculateReward (some prev) (some curr)
        = lifeLostByOpponentComponent (playerLife pp 1) (playerLife cp 1)
          + lifeLostBySelfComponent (playerLife pp 0) (playerLife cp 0)
          + winBonusComponent (playerLife cp 1)
          + lossPenaltyComponent (playerLife cp 0) (playerLife cp 1))
    ∧ (calculateReward (some prev) (some curr)
        = lossPenaltyComponent (playerLife cp 0) (playerLife cp 1)
          + winBonusComponent (playerLife cp 1)
          + lifeLostBySelfComponent (playerLife pp 0) (playerLife cp 0)
          + lifeLostByOpponentComponent (playerLife pp 1) (playerLife cp 1))
    ∧ (prev = curr → 0 < playerLife cp 0 → 0 < playerLife cp 1 →
        calculateReward (some prev) (some curr) = 0) := by
  have hmain : calculateReward (some prev) (some curr)
      = lifeLostByOpponentComponent (playerLife pp 1) (playerLife cp 1)
        + lifeLostBySelfComponent (playerLife pp 0) (playerLife cp 0)
        + winBonusComponent (playerLife cp 1)
        + lossPenaltyComponent (playerLife cp 0) (playerLife cp 1) := by
    rw [calculateReward_eq_components, hp, hc]
    simp only [Option.getD_some]
    rw [if_pos ⟨h2p, h2c⟩]
  refine ⟨hmain, by rw [hmain]; ring, ?_⟩
  intro heq h0 h1
  subst heq
  rw [hp] at hc
  injection hc with hpp
  subst hpp
  have ha : lifeLostByOpponentComponent (playerLife pp 1) (playerLife pp 1) = 0 := by
    unfold lifeLostByOpponentComponent
    rw [if_neg (lt_irrefl _)]
  have hb : lifeLostBySelfComponent (playerLife pp 0) (playerLife pp 0) = 0 := by
    unfold lifeLostBySelfComponent
    rw [if_neg (lt_irrefl _)]
  have hw : winBonusComponent (playerLife pp 1) = 0 := by
    unfold winBonusComponent
    rw [if_neg (by omega)]
  have hl : lossPenaltyComponent (playerLife pp 0) (playerLife pp 1) = 0 := by
    unfold lossPenaltyComponent
    rw [if_neg (by omega)]
  rw [hmain, ha, hb, hw, hl]
  norm_num

/-- C6 witness: the component decomposition evaluated on the concrete
winning transition (opponent 5 → 0). -/
theorem c6_witness :
    calculateReward (some winPrevState) (some winCurrState)
      = lifeLostByOpponentComponent 5 0 + lifeLostBySelfComponent 20 20
        + winBonusComponent 0 + lossPenaltyComponent 20 0 := by
  have h := c6_component_additivity winPrevState winCurrState
    [{ life := some 20, hand := none }, { life := some 5, hand := none }]
    [{ life := some 20, hand := none }, { life := some 0, hand := none }]
    rfl rfl (by decide) (by decide)
  simpa [playerLife, emptyPlayer] using h.1

/-- C7: a malformed or empty transport response (JSON parse failure, or a
response that parses to the empty state) makes `_update_state` store the
falsy state, and `_get_observation` then yields exactly the documented
default observation; both functions are total, so no exception escapes. -/
theorem c7_default_observation_on_parse_failure :
    getObservation (updateCurrentState ParseOutcome.jsonError)
      = { turn := 0, phase := 0, active_player := 0, stack_size := 0,
          player_0_life := 20, player_1_life := 20,
          player_0_hand_size := 0, player_1_hand_size := 0 }
    ∧ getObservation (updateCurrentState (ParseOutcome.ok none))
      = { turn := 0, phase := 0, active_player := 0, stack_size := 0,
          player_0_life := 20, player_1_life := 20,
          player_0_hand_size := 0, player_1_hand_size := 0 } :=
  ⟨rfl, rfl⟩

/-- C8: `policy_request` accepts a bare integer or a dict carrying
`action_index` or `index`, and returns the default index 0 on a network
error, a timeout, an unparseable response, an uncoercible body, or an
explicit null index. -/
theorem c8_policy_request_protocol :
    (∀ n : Int, policyRequest (PolicyOutcome.response (PolicyJson.jint n)) = n)
    ∧ (∀ (n : Int) (indexField : Option (Option Int)),
        policyRequest (PolicyOutcome.response
          (PolicyJson.jdict (some (some n)) indexField)) = n)
    ∧ (∀ n : Int, policyRequest (PolicyOutcome.response
        (PolicyJson.jdict none (some (some n)))) = n)
    ∧ policyRequest PolicyOutcome.networkError = 0
    ∧ policyRequest PolicyOutcome.timeout = 0
    ∧ policyRequest PolicyOutcome.parseError = 0
    ∧ (∀ indexField : Option (Option Int),
        policyRequest (PolicyOutcome.response
          (PolicyJson.jdict (some none) indexField)) = 0)
    ∧ policyRequest (PolicyOutcome.response (PolicyJson.jdict none (some none))) = 0
    ∧ policyRequest (PolicyOutcome.response (PolicyJson.jother none)) = 0 :=
  ⟨fun _ => rfl, fun _ _ => rfl, fun _ => rfl, rfl, rfl, rfl, fun _ => rfl, rfl, rfl⟩

/-- C9: an empty action list while the game is not reported over makes the
loop end that episode at once, with an exit reason distinct from the
normal game-over outcome. -/
theorem c9_no_actions_ends_episode (engine : Nat → Int → Option StateDict)
    (policy : Nat → Int) (maxSteps step : Nat) (st : StateDict)
    (hgo : gameOverFlag st = false) (hstep : step < maxSteps)
    (hacts : actionsOf st = []) :
    runLoop engine policy maxSteps st step = (step + 1, ExitReason.noActions)
    ∧ ExitReason.noActions ≠ ExitReason.gameOver := by
  refine ⟨?_, by decide⟩
  rw [runLoop]
  simp [hgo, hstep, hacts]

/-- C9 witness: a keyless state offers no actions and no game-over flag. -/
theorem c9_witness :
    runLoop (fun _ _ => none) (fun _ => 0) 500 emptyStateDict 0
      = (1, ExitReason.noActions)
    ∧ ExitReason.noActions ≠ ExitReason.gameOver :=
  c9_no_actions_ends_episode (fun _ _ => none) (fun _ => 0) 500 0 emptyStateDict
    rfl (by decide) rfl

/-- C10: calling `step` with no engine process raises `RuntimeError`
directly: the result is the error, so no command is sent, no state is
read and no step result is produced. -/
theorem c10_step_before_reset (env : EnvState) (action : Int)
    (sp : ParseOutcome) (ap : ActionsParse) (h : env.process = none) :
    envStep env action sp ap
      = Except.error "Environment not initialized. Call reset() first." := by
  unfold envStep
  rw [h]

/-- C10 witness: a freshly-constructed environment (no process) errors on
`step`. -/
theorem c10_witness :
    envStep { process := none, current_state := none, current_actions := [],
              episode_turns := 0, max_turns := 100 } 0
        ParseOutcome.jsonError ActionsParse.jsonError
      = Except.error "Environment not initialized. Call reset() first." :=
  c10_step_before_reset
    { process := none, current_state := none, current_actions := [],
      episode_turns := 0, max_turns := 100 } 0
    ParseOutcome.jsonError ActionsParse.jsonError rfl
